import Mathlib

/-!
Shallow embedding of the RAG guide-assembly pipeline of this repository
(src/backend/main.py, with the single-shot variant in src/main.py).

Modelling conventions:
* Python JSON values are the inductive type `Json`; machine floats that occur
  as similarity scores are modelled as rationals, and the fixed threshold
  0.35 as (7 : Rat)/20.
* Python dicts are ordered association lists without duplicate keys;
  assignment `d[k] = v` replaces in place when the key exists and appends
  otherwise (`set_assoc`), exactly as CPython dicts behave.
* Fallible Python operations (attribute access on a non-dict, `step["step"]`
  on a dict without that key, item assignment on a non-dict) are modelled in
  `Except PyError`; an uncaught exception is an `.error` result.
* External collaborators are parameters: the text retriever result is the
  list of retrieved documents, the language-model backend is a function
  `String -> Option String` (`None` models the `call_llm` failure path), and
  the embedding-plus-cosine-similarity service is a score function
  `String -> ImageRecord -> Rat` (the score of a query text against the
  precomputed embedding of one corpus record, so that the score list
  `KB.map (sc q)` always has the corpus length, as in the code where
  IMAGE_EMBEDDINGS is built from IMAGE_KB).
* `json.loads` is modelled by `json_loads`, a parser for the JSON fragment
  the pipeline exercises (objects, arrays, strings without escapes, integer
  numbers, `true`, `false`, `null`).
-/

inductive Json where
  | null : Json
  | bool (b : Bool) : Json
  | num (n : Int) : Json
  | str (s : String) : Json
  | arr (items : List Json) : Json
  | obj (kvs : List (String × Json)) : Json

instance : Inhabited Json := ⟨Json.null⟩

inductive PyError where
  | attributeError : PyError
  | typeError : PyError
  | keyError (k : String) : PyError
deriving DecidableEq, Repr

/-- Lookup in an ordered association list (Python dict read). -/
def lookup_assoc : List (String × Json) → String → Option Json
  | [], _ => none
  | (k', v) :: t, k => if k' = k then some v else lookup_assoc t k

/-- Python dict assignment: replace in place if the key exists, else append. -/
def set_assoc : List (String × Json) → String → Json → List (String × Json)
  | [], k, v => [(k, v)]
  | (k', v') :: t, k, v =>
      if k' = k then (k, v) :: t else (k', v') :: set_assoc t k v

/-- Read a key of a Json object; `none` on a non-object or absent key. -/
def jlookup (j : Json) (k : String) : Option Json :=
  match j with
  | .obj kvs => lookup_assoc kvs k
  | _ => none

/-- `d[k] = v` on a Json object; unchanged on a non-object (guarded by callers). -/
def dict_set (j : Json) (k : String) (v : Json) : Json :=
  match j with
  | .obj kvs => .obj (set_assoc kvs k v)
  | _ => j

/-- Python `d.get(k, default)`: raises AttributeError on a non-dict. -/
def py_get (j : Json) (k : String) (d : Json) : Except PyError Json :=
  match j with
  | .obj kvs => .ok ((lookup_assoc kvs k).getD d)
  | _ => .error .attributeError

/-- Python `d[k] = v`: raises TypeError when the receiver is not a dict. -/
def py_setitem (j : Json) (k : String) (v : Json) : Except PyError Json :=
  match j with
  | .obj kvs => .ok (.obj (set_assoc kvs k v))
  | _ => .error .typeError

/-- Python iteration `for x in j`: lists yield their items, strings their
characters (as one-character strings), dicts their keys; other values raise
TypeError. -/
def py_iter (j : Json) : Except PyError (List Json) :=
  match j with
  | .arr l => .ok l
  | .str s => .ok (s.data.map fun c => Json.str (String.mk [c]))
  | .obj kvs => .ok (kvs.map fun kv => Json.str kv.1)
  | _ => .error .typeError

/-- Python truthiness test `not x` on a JSON value. -/
def pyFalsy : Json → Bool
  | .null => true
  | .bool b => !b
  | .num n => n = 0
  | .str s => s = ""
  | .arr l => l.isEmpty
  | .obj l => l.isEmpty

def isObj : Json → Bool
  | .obj _ => true
  | _ => false

/-- Rendering a value inside an f-string, as Python `str()` does. Container
rendering is schematic (element quoting is simplified); the pipeline only
ever formats strings this way, where `pyStr` is the identity. -/
def pyStr : Json → String
  | .null => "None"
  | .bool true => "True"
  | .bool false => "False"
  | .num n => toString n
  | .str s => s
  | .arr _ => "[...]"
  | .obj _ => "\x7b...\x7d"

-- JSON text parser modelling Python json.loads on the fragment exercised here.

def jsonWs (c : Char) : Bool :=
  c = ' ' || c = '\n' || c = '\t' || c = '\r'

def skipWs : List Char → List Char
  | [] => []
  | c :: cs => if jsonWs c then skipWs cs else c :: cs

/-- Body of a JSON string after the opening quote (no escape sequences). -/
def takeStringBody : List Char → Option (String × List Char)
  | [] => none
  | c :: cs =>
      if c = '"' then some ("", cs)
      else if c = '\\' then none
      else
        match takeStringBody cs with
        | some (s, rest) => some (String.mk (c :: s.data), rest)
        | none => none

def takeDigits : List Char → (List Char × List Char)
  | [] => ([], [])
  | c :: cs =>
      if c.isDigit then
        let p := takeDigits cs
        (c :: p.1, p.2)
      else ([], c :: cs)

def digitsToNat (ds : List Char) : Nat :=
  ds.foldl (fun a c => a * 10 + (c.toNat - '0'.toNat)) 0

def lbrace : Char := Char.ofNat 123
def rbrace : Char := Char.ofNat 125

mutual

def parseVal : Nat → List Char → Option (Json × List Char)
  | 0, _ => none
  | fuel + 1, cs =>
      match skipWs cs with
      | [] => none
      | c :: cs' =>
          if c = '"' then
            match takeStringBody cs' with
            | some (s, rest) => some (.str s, rest)
            | none => none
          else if c = '[' then
            match skipWs cs' with
            | ']' :: rest => some (.arr [], rest)
            | cs'' =>
                match parseItems fuel cs'' with
                | some (l, rest) => some (.arr l, rest)
                | none => none
          else if c = lbrace then
            match skipWs cs' with
            | d :: rest =>
                if d = rbrace then some (.obj [], rest)
                else
                  match parseMembers fuel (d :: rest) with
                  | some (l, rest') =>
                      some (l.foldl (fun acc kv => dict_set acc kv.1 kv.2) (.obj []), rest')
                  | none => none
            | [] => none
          else
            match c :: cs' with
            | 't' :: 'r' :: 'u' :: 'e' :: rest => some (.bool true, rest)
            | 'f' :: 'a' :: 'l' :: 's' :: 'e' :: rest => some (.bool false, rest)
            | 'n' :: 'u' :: 'l' :: 'l' :: rest => some (.null, rest)
            | '-' :: rest =>
                match takeDigits rest with
                | ([], _) => none
                | (ds, rest') => some (.num (-(digitsToNat ds : Int)), rest')
            | cs'' =>
                match takeDigits cs'' with
                | ([], _) => none
                | (ds, rest') => some (.num (digitsToNat ds : Int), rest')

def parseItems : Nat → List Char → Option (List Json × List Char)
  | 0, _ => none
  | fuel + 1, cs =>
      match parseVal fuel cs with
      | none => none
      | some (v, rest) =>
          match skipWs rest with
          | ',' :: rest' =>
              match parseItems fuel rest' with
              | some (l, rest'') => some (v :: l, rest'')
              | none => none
          | ']' :: rest' => some ([v], rest')
          | _ => none

def parseMembers : Nat → List Char → Option (List (String × Json) × List Char)
  | 0, _ => none
  | fuel + 1, cs =>
      match skipWs cs with
      | '"' :: cs' =>
          match takeStringBody cs' with
          | none => none
          | some (k, rest) =>
              match skipWs rest with
              | ':' :: rest' =>
                  match parseVal fuel rest' with
                  | none => none
                  | some (v, rest'') =>
                      match skipWs rest'' with
                      | ',' :: rest3 =>
                          match parseMembers fuel rest3 with
                          | some (l, rest4) => some ((k, v) :: l, rest4)
                          | none => none
                      | d :: rest3 =>
                          if d = rbrace then some ([(k, v)], rest3) else none
                      | [] => none
              | _ => none
      | _ => none

end

/-- Model of Python `json.loads`: the whole input must be consumed. -/
def json_loads (s : String) : Option Json :=
  match parseVal (2 * s.length + 4) s.data with
  | some (v, rest) => if skipWs rest = [] then some v else none
  | none => none

-- ------------------------------------------------------------------
-- Data model of the pipeline inputs
-- ------------------------------------------------------------------

/-- A retrieved text chunk, as produced by the Chroma retriever
(`retriever.invoke(query)` in src/backend/main.py line 197): the page
content plus the `filename` metadata field read by the src/main.py variant. -/
structure Doc where
  page_content : String
  filename : String
deriving DecidableEq, Repr, Inhabited

/-- One record of the preloaded image corpus IMAGE_KB
(image_knowledge_base.json); only `file_path` is read during matching,
the caption fields enter only through the precomputed embedding, which is
absorbed into the score function parameter. -/
structure ImageRecord where
  file_path : String
deriving DecidableEq, Repr, Inhabited

-- ------------------------------------------------------------------
-- Image similarity search (src/main.py find_best_images and the
-- per-step matching loop of src/backend/main.py phase_2_semantic_match)
-- ------------------------------------------------------------------

/-- Stable insertion into an ascending-by-score index list: the new index is
placed after every index of smaller-or-equal score, as a stable ascending
sort does. -/
def insertIdx (s : List ℚ) (i : Nat) : List Nat → List Nat
  | [] => [i]
  | j :: l => if s.getD i 0 < s.getD j 0 then i :: j :: l else j :: insertIdx s i l

/-- Model of `np.argsort(scores)`: the indices `0..length-1` sorted in
ascending score order, stably (numpy default sort coincides with a stable
insertion sort on the small arrays this pipeline produces, and stability is
the property the spec appeals to). -/
def argsort (s : List ℚ) : List Nat :=
  (List.range s.length).foldl (fun acc i => insertIdx s i acc) []

/-- The fixed similarity threshold 0.35, as the rational 7/20 (spelled with
`mkRat` so that concrete instances evaluate by kernel reduction). -/
def img_threshold : ℚ := mkRat 7 20

theorem img_threshold_eq : img_threshold = 7/20 := by
  norm_num [img_threshold, Rat.mkRat_eq_div]

/-- `np.argsort(scores)[::-1][:top_k]` followed by the threshold filter
`scores[idx] > 0.35` — the index-selection logic shared verbatim by
find_best_images (src/main.py lines 50-54) and phase_2_semantic_match
(src/backend/main.py lines 171-180). -/
def search_indices (scores : List ℚ) (top_k : Nat) : List Nat :=
  ((argsort scores).reverse.take top_k).filter fun i => decide (img_threshold < scores.getD i 0)

/-- src/main.py lines 45-55: search the image corpus for a step. The
embedding model plus cosine similarity is the parameter `sc`; the score
array `cosine_similarity([query_vec], IMAGE_EMBEDDINGS)[0]` is
`KB.map (sc search_query)`. Returns the (path, score) pairs the Python
code returns as dicts. -/
def find_best_images (KB : List ImageRecord) (sc : String → ImageRecord → ℚ)
    (task_title step_description : String) (top_k : Nat := 3) : List (String × ℚ) :=
  if KB.isEmpty then []
  else
    let search_query := task_title ++ " " ++ step_description
    let scores := KB.map (sc search_query)
    (search_indices scores top_k).map fun i =>
      ((KB.getD i default).file_path, scores.getD i 0)

-- ------------------------------------------------------------------
-- Phase 2: semantic image matching (src/backend/main.py lines 149-188)
-- ------------------------------------------------------------------

/-- The search text `f"{task_title} {instruction}"` built at
src/backend/main.py line 163. -/
def phase_2_query_text (task_title instruction : Json) : String :=
  pyStr task_title ++ " " ++ pyStr instruction

/-- The body of the per-step loop of phase_2_semantic_match (lines 159-186):
read `instruction` via `.get`, score the corpus, keep the top-3 indices above
the threshold, and assign `step["images"]`. The success-log print at line 182
subscripts `step["step"]`, so a step that has an accepted match but no
`"step"` key raises KeyError. -/
def phase_2_step (KB : List ImageRecord) (sc : String → ImageRecord → ℚ)
    (task_title : Json) (step : Json) : Except PyError Json :=
  match py_get step "instruction" (.str "") with
  | .error e => .error e
  | .ok instruction =>
      let scores := KB.map (sc (phase_2_query_text task_title instruction))
      let sel := search_indices scores 3
      if sel.isEmpty then .ok (dict_set step "images" .null)
      else
        match jlookup step "step" with
        | none => .error (.keyError "step")
        | some _ =>
            .ok (dict_set step "images"
              (.arr (sel.map fun i => .str (KB.getD i default).file_path)))

/-- The `for step in steps` loop of phase_2_semantic_match, threading the
first uncaught exception. -/
def phase_2_steps (KB : List ImageRecord) (sc : String → ImageRecord → ℚ)
    (task_title : Json) : List Json → Except PyError (List Json)
  | [] => .ok []
  | st :: rest =>
      match phase_2_step KB sc task_title st with
      | .error e => .error e
      | .ok st' =>
          match phase_2_steps KB sc task_title rest with
          | .error e => .error e
          | .ok rest' => .ok (st' :: rest')

/-- src/backend/main.py lines 149-188. With an empty corpus the input is
returned untouched (lines 152-154). Otherwise `steps_json.get("steps", [])`
and `.get("task_title", "")` require a dict; the loop mutates each step dict
in place, which functionally is: the `"steps"` value is replaced by the
updated list when the key held a list, and nothing else changes. An
exception inside the loop propagates (the function has no handler). -/
def phase_2_obj (KB : List ImageRecord) (sc : String → ImageRecord → ℚ)
    (kvs : List (String × Json)) : Except PyError Json :=
  match py_iter ((lookup_assoc kvs "steps").getD (.arr [])) with
  | .error e => .error e
  | .ok items =>
      match phase_2_steps KB sc ((lookup_assoc kvs "task_title").getD (.str "")) items with
      | .error e => .error e
      | .ok items' =>
          match lookup_assoc kvs "steps" with
          | some (.arr _) => .ok (.obj (set_assoc kvs "steps" (.arr items')))
          | _ => .ok (.obj kvs)

def phase_2_semantic_match (KB : List ImageRecord) (sc : String → ImageRecord → ℚ)
    (steps_json : Json) : Except PyError Json :=
  if KB.isEmpty then .ok steps_json
  else
    match steps_json with
    | .obj kvs => phase_2_obj KB sc kvs
    | _ => .error .attributeError

-- ------------------------------------------------------------------
-- LLM invocation configuration (src/backend/main.py call_llm, lines 88-117)
-- ------------------------------------------------------------------

inductive Mode where
  | LOCAL : Mode
  | CLOUD : Mode
deriving DecidableEq, Repr

/-- The sampling/format configuration call_llm passes to the backend client:
`temperature` and the response-format constraint (spelled `format="json"`
for Ollama and `response_format` with type `json_object` for Groq),
present exactly when `json_mode` is set. -/
structure LLMCallConfig where
  temperature : ℚ
  response_format : Option String
deriving DecidableEq, Repr

/-- src/backend/main.py lines 88-114: LOCAL builds ChatOllama with
`temperature=0.1` and `format="json" if json_mode else None`; CLOUD calls
Groq with `temperature=0.0` and `response_format={"type": "json_object"} if
json_mode else None`. -/
def call_llm_config (mode : Mode) (json_mode : Bool) : LLMCallConfig :=
  match mode with
  | .LOCAL => { temperature := mkRat 1 10, response_format := if json_mode then some "json" else none }
  | .CLOUD => { temperature := 0, response_format := if json_mode then some "json_object" else none }

/-- phase_1_generate_steps calls `call_llm(prompt, mode, json_mode=True)`
(line 137), so this is the configuration every guide-generation call uses. -/
def phase_1_llm_config (mode : Mode) : LLMCallConfig :=
  call_llm_config mode true

-- ------------------------------------------------------------------
-- Phase 1: step generation (src/backend/main.py lines 120-145)
-- ------------------------------------------------------------------

/-- The f-string prompt of phase_1_generate_steps (lines 124-135). -/
def phase_1_prompt (query text_context : String) : String :=
  "\n    You are a technical instruction extractor.\n    CONTEXT: " ++ text_context ++
  "\n    QUERY: \"" ++ query ++ "\"\n\n    TASK: Extract steps.\n    OUTPUT FORMAT (JSON ONLY):\n    \x7b\n      \"task_title\": \"string\",\n      \"steps\": [ \x7b \"step\": 1, \"instruction\": \"string\", \"chunks\": [1] \x7d ]\n    \x7d\n    "

/-- src/backend/main.py lines 121-145: invoke the backend (`llm` returns
`none` on the call_llm failure path), treat a falsy raw response as failure,
then `json.loads` inside try/except with `None` on a parse error. No schema
validation happens on the parsed value. -/
def phase_1_generate_steps (llm : String → Option String) (query text_context : String) :
    Option Json :=
  match llm (phase_1_prompt query text_context) with
  | none => none
  | some raw => if raw = "" then none else json_loads raw

-- ------------------------------------------------------------------
-- Orchestrator (src/backend/main.py generate_guide_from_rag, lines 192-219)
-- ------------------------------------------------------------------

/-- Collapse embedded newlines to spaces:
`d.page_content.replace(chr(10), " ")` at line 203. -/
def replace_newlines (s : String) : String :=
  String.mk (s.data.map fun c => if c = '\n' then ' ' else c)

/-- The labeled context parts `f"[Chunk {i + 1}] {...}"` of lines 202-205:
1-based chunk ids, newline-collapsed content, no source attribution. -/
def build_context_parts (docs : List Doc) : List String :=
  docs.enum.map fun p => "[Chunk " ++ toString (p.1 + 1) ++ "] " ++ replace_newlines p.2.page_content

/-- `"\n\n".join(context_parts)` at line 206. -/
def text_context_of (docs : List Doc) : String :=
  String.intercalate "\n\n" (build_context_parts docs)

/-- The terminal result for an empty retrieval (line 200). -/
def noInfoGuide : Json :=
  .obj [("status", .str "error"), ("message", .str "No info found.")]

/-- The terminal result for a failed or falsy phase 1 (line 211). -/
def stepFailGuide : Json :=
  .obj [("status", .str "error"), ("message", .str "Step generation failed.")]

/-- src/backend/main.py lines 192-219. The retriever is external: its result
is the parameter `relevant_docs`. An empty retrieval short-circuits before
any model call; a `None`-or-falsy phase 1 result yields the step-failure
guide; otherwise phase 2 runs (its exceptions propagate) and
`final_data["status"] = "success"` is assigned. -/
def generate_guide_from_rag (KB : List ImageRecord) (sc : String → ImageRecord → ℚ)
    (relevant_docs : List Doc) (llm : String → Option String) (query : String) :
    Except PyError Json :=
  if relevant_docs.isEmpty then .ok noInfoGuide
  else
    match phase_1_generate_steps llm query (text_context_of relevant_docs) with
    | none => .ok stepFailGuide
    | some step_data =>
        if pyFalsy step_data then .ok stepFailGuide
        else
          match phase_2_semantic_match KB sc step_data with
          | .error e => .error e
          | .ok final_data => py_setitem final_data "status" (.str "success")

-- Derived observations used by several claims.

/-- The per-step values of one field of the steps array of a guide. -/
def step_field_list (j : Json) (k : String) : List (Option Json) :=
  match jlookup j "steps" with
  | some (.arr l) => l.map fun s => jlookup s k
  | _ => []

/-- The number of steps of a guide. -/
def step_count (j : Json) : Nat :=
  match jlookup j "steps" with
  | some (.arr l) => l.length
  | _ => 0


-- ------------------------------------------------------------------
-- Lemmas about the argsort-based index selection
-- ------------------------------------------------------------------

/-- The strict order in which a stable ascending argsort emits indices:
smaller score first, ties by insertion order. -/
def scoreRel (s : List ℚ) (i j : Nat) : Prop :=
  s.getD i 0 < s.getD j 0 ∨ (s.getD i 0 = s.getD j 0 ∧ i < j)

theorem mem_insertIdx (s : List ℚ) (i a : Nat) :
    ∀ l : List Nat, a ∈ insertIdx s i l ↔ a = i ∨ a ∈ l
  | [] => by simp [insertIdx]
  | j :: t => by
    unfold insertIdx
    by_cases hc : s.getD i 0 < s.getD j 0
    · rw [if_pos hc]
      simp [List.mem_cons]
    · rw [if_neg hc]
      simp only [List.mem_cons, mem_insertIdx s i a t]
      tauto

theorem pairwise_insertIdx (s : List ℚ) (i : Nat) :
    ∀ l : List Nat, l.Pairwise (scoreRel s) → (∀ j ∈ l, j < i) →
      (insertIdx s i l).Pairwise (scoreRel s)
  | [], _, _ => by simp [insertIdx, scoreRel]
  | j :: t, hp, hlt => by
    rcases List.pairwise_cons.mp hp with ⟨hjall, hpt⟩
    unfold insertIdx
    by_cases hc : s.getD i 0 < s.getD j 0
    · rw [if_pos hc]
      refine List.pairwise_cons.mpr ⟨?_, hp⟩
      intro b hb
      rcases List.mem_cons.mp hb with rfl | hb
      · exact Or.inl hc
      · rcases hjall b hb with hb' | ⟨hb', _⟩
        · exact Or.inl (lt_trans hc hb')
        · exact Or.inl (hb' ▸ hc)
    · rw [if_neg hc]
      refine List.pairwise_cons.mpr ⟨?_, ?_⟩
      · intro b hb
        rcases (mem_insertIdx s i b t).mp hb with rfl | hb
        · rcases lt_or_eq_of_le (le_of_not_lt hc) with h' | h'
          · exact Or.inl h'
          · exact Or.inr ⟨h', hlt j (List.mem_cons_self j t)⟩
        · exact hjall b hb
      · exact pairwise_insertIdx s i t hpt fun b hb => hlt b (List.mem_cons_of_mem j hb)

theorem mem_foldl_insert (s : List ℚ) (a : Nat) :
    ∀ (l : List Nat) (acc : List Nat),
      a ∈ l.foldl (fun ac i => insertIdx s i ac) acc ↔ a ∈ acc ∨ a ∈ l
  | [], acc => by simp
  | i :: t, acc => by
    simp only [List.foldl_cons, mem_foldl_insert s a t, mem_insertIdx, List.mem_cons]
    tauto

theorem pairwise_foldl_insert (s : List ℚ) :
    ∀ (l : List Nat) (acc : List Nat), acc.Pairwise (scoreRel s) →
      l.Pairwise (· < ·) → (∀ i ∈ l, ∀ j ∈ acc, j < i) →
      (l.foldl (fun ac i => insertIdx s i ac) acc).Pairwise (scoreRel s)
  | [], acc, hacc, _, _ => hacc
  | i :: t, acc, hacc, hl, hcross => by
    rcases List.pairwise_cons.mp hl with ⟨hiall, hlt⟩
    refine pairwise_foldl_insert s t (insertIdx s i acc)
      (pairwise_insertIdx s i acc hacc fun j hj => hcross i (List.mem_cons_self i t) j hj)
      hlt ?_
    intro i' hi' j hj
    rcases (mem_insertIdx s i j acc).mp hj with rfl | hj
    · exact hiall i' hi'
    · exact hcross i' (List.mem_cons_of_mem i hi') j hj

theorem argsort_pairwise (s : List ℚ) : (argsort s).Pairwise (scoreRel s) :=
  pairwise_foldl_insert s (List.range s.length) []
    List.Pairwise.nil (List.pairwise_lt_range _) (by simp)

theorem mem_argsort (s : List ℚ) (a : Nat) : a ∈ argsort s ↔ a < s.length := by
  unfold argsort
  rw [mem_foldl_insert]
  simp [List.mem_range]

theorem search_indices_mem (scores : List ℚ) (k i : Nat) (h : i ∈ search_indices scores k) :
    i < scores.length ∧ img_threshold < scores.getD i 0 := by
  unfold search_indices at h
  rcases List.mem_filter.mp h with ⟨hmem, hthr⟩
  refine ⟨?_, by simpa using hthr⟩
  exact (mem_argsort scores i).mp (List.mem_reverse.mp (List.mem_of_mem_take hmem))

theorem search_indices_length (scores : List ℚ) (k : Nat) :
    (search_indices scores k).length ≤ k := by
  unfold search_indices
  calc (((argsort scores).reverse.take k).filter _).length
      ≤ ((argsort scores).reverse.take k).length := List.length_filter_le _ _
    _ ≤ k := by simp [List.length_take]

theorem search_indices_pairwise (scores : List ℚ) (k : Nat) :
    (search_indices scores k).Pairwise (fun i j => scoreRel scores j i) := by
  have h1 : ((argsort scores).reverse).Pairwise (fun i j => scoreRel scores j i) :=
    List.pairwise_reverse.mpr (argsort_pairwise scores)
  have h2 := h1.sublist (List.take_sublist k _)
  exact h2.sublist (List.filter_sublist _)

-- ------------------------------------------------------------------
-- Concrete fixtures used by witnesses and counterexamples
-- ------------------------------------------------------------------

/-- One-record image corpus. -/
def KBa : List ImageRecord := [⟨"a.png"⟩]

/-- Two-record image corpus, insertion order a then b. -/
def KBab : List ImageRecord := [⟨"a.png"⟩, ⟨"b.png"⟩]

/-- A score function giving every record the score 1/2 (above threshold). -/
def scHalf : String → ImageRecord → ℚ := fun _ _ => mkRat 1 2

/-- One retrieved chunk. -/
def docs1 : List Doc := [⟨"Remove the cap", "manual_a.pdf"⟩]

-- ------------------------------------------------------------------
-- C1
-- ------------------------------------------------------------------

/-- C1: when the text retriever returns an empty chunk sequence,
generate_guide_from_rag returns the fixed guide with status error and the
non-empty message, and the result is the same for every language-model
backend `llm` — the model is never consulted (the universally quantified
backend cannot influence the constant result). -/
theorem C1_empty_retrieval_error (KB : List ImageRecord) (sc : String → ImageRecord → ℚ)
    (llm : String → Option String) (query : String) :
    generate_guide_from_rag KB sc [] llm query = .ok noInfoGuide ∧
    jlookup noInfoGuide "status" = some (.str "error") ∧
    jlookup noInfoGuide "message" = some (.str "No info found.") ∧
    "No info found." ≠ "" :=
  ⟨rfl, rfl, rfl, by decide⟩

-- ------------------------------------------------------------------
-- C2
-- ------------------------------------------------------------------

/-- C2: every match returned by the image search scores strictly above 0.35
(entries at or below the threshold are dropped even when top_k is not
filled), and an empty corpus yields the empty result rather than an error. -/
theorem C2_image_threshold (KB : List ImageRecord) (sc : String → ImageRecord → ℚ)
    (title desc : String) (top_k : Nat) :
    (∀ p q, (p, q) ∈ find_best_images KB sc title desc top_k → (7:ℚ)/20 < q) ∧
    (KB = [] → find_best_images KB sc title desc top_k = []) := by
  constructor
  · intro p q hm
    by_cases hKB : KB.isEmpty
    · simp [find_best_images, hKB] at hm
    · simp only [find_best_images, if_neg hKB] at hm
      rcases List.mem_map.mp hm with ⟨i, hi, heq⟩
      have h2 := (search_indices_mem _ _ _ hi).2
      have hq : q = (KB.map (sc (title ++ " " ++ desc))).getD i 0 :=
        (congrArg Prod.snd heq).symm
      rw [hq, ← img_threshold_eq]
      exact h2
  · intro h
    subst h
    rfl

/-- Witness for C2 at concrete inputs: a returned match scoring 1/2 clears
the threshold, and the empty corpus returns the empty list. -/
theorem C2_image_threshold_witness :
    (7:ℚ)/20 < mkRat 1 2 ∧ find_best_images [] scHalf "t" "d" 3 = [] :=
  ⟨(C2_image_threshold KBab scHalf "t" "d" 3).1 "b.png" (mkRat 1 2) (by decide),
   (C2_image_threshold [] scHalf "t" "d" 3).2 rfl⟩

-- ------------------------------------------------------------------
-- C3
-- ------------------------------------------------------------------

/-- C3 counterexample: with two corpus records of equal score 1/2, the
search returns record 1 before record 0 — reverse insertion order, not the
insertion order the claim states — because the code reverses an ascending
argsort (`np.argsort(scores)[::-1]`). -/
theorem C3_tie_order_counterexample :
    find_best_images KBab scHalf "t" "d" 3 =
      [("b.png", mkRat 1 2), ("a.png", mkRat 1 2)] ∧
    [("b.png", mkRat 1 2), ("a.png", mkRat 1 2)] ≠
      [("a.png", mkRat 1 2), ("b.png", mkRat 1 2)] :=
  ⟨by decide, by decide⟩

/-- C3 (amended): the search returns at most top_k entries sorted by
non-increasing score, and entries with equal score appear in REVERSE corpus
insertion order — the selected index list is strictly decreasing within
ties (`scoreRel scores j i` for i before j). -/
theorem C3_topk_sorted_amended (KB : List ImageRecord) (sc : String → ImageRecord → ℚ)
    (title desc : String) (top_k : Nat) :
    (find_best_images KB sc title desc top_k).length ≤ top_k ∧
    (find_best_images KB sc title desc top_k).Pairwise (fun a b => b.2 ≤ a.2) ∧
    (search_indices (KB.map (sc (title ++ " " ++ desc))) top_k).Pairwise
      (fun i j => scoreRel (KB.map (sc (title ++ " " ++ desc))) j i) := by
  refine ⟨?_, ?_, search_indices_pairwise _ _⟩
  · by_cases hKB : KB.isEmpty
    · simp [find_best_images, hKB]
    · simp only [find_best_images, if_neg hKB, List.length_map]
      exact search_indices_length _ _
  · by_cases hKB : KB.isEmpty
    · simp [find_best_images, hKB]
    · simp only [find_best_images, if_neg hKB]
      refine List.pairwise_map.mpr ?_
      refine List.Pairwise.imp ?_ (search_indices_pairwise _ _)
      intro i j hij
      rcases hij with h | ⟨h, _⟩
      · exact le_of_lt h
      · exact le_of_eq h

-- ------------------------------------------------------------------
-- Association-list and phase-2 frame lemmas
-- ------------------------------------------------------------------

theorem lookup_set_assoc_self (l : List (String × Json)) (k : String) (v : Json) :
    lookup_assoc (set_assoc l k v) k = some v := by
  induction l with
  | nil => simp [set_assoc, lookup_assoc]
  | cons kv t ih =>
      obtain ⟨k', v'⟩ := kv
      by_cases h : k' = k
      · simp [set_assoc, h, lookup_assoc]
      · simp [set_assoc, h, lookup_assoc, ih]

theorem lookup_set_assoc_ne (l : List (String × Json)) (k k' : String) (v : Json)
    (h : k' ≠ k) : lookup_assoc (set_assoc l k v) k' = lookup_assoc l k' := by
  have hne : ¬ (k = k') := fun hh => h hh.symm
  induction l with
  | nil =>
      simp only [set_assoc, lookup_assoc]
      exact if_neg hne
  | cons kv t ih =>
      obtain ⟨a, b⟩ := kv
      by_cases ha : a = k
      · subst ha
        simp [set_assoc, lookup_assoc, hne]
      · simp [set_assoc, ha, lookup_assoc, ih]

theorem jlookup_dict_set_self (kvs : List (String × Json)) (k : String) (v : Json) :
    jlookup (dict_set (.obj kvs) k v) k = some v :=
  lookup_set_assoc_self kvs k v

theorem jlookup_dict_set_ne (kvs : List (String × Json)) (k k' : String) (v : Json)
    (h : k' ≠ k) : jlookup (dict_set (.obj kvs) k v) k' = jlookup (.obj kvs) k' :=
  lookup_set_assoc_ne kvs k k' v h

/-- A successful phase-2 step is exactly the input step with the `"images"`
key written. -/
theorem phase_2_step_shape (KB : List ImageRecord) (sc : String → ImageRecord → ℚ)
    (tt step s' : Json) (h : phase_2_step KB sc tt step = .ok s') :
    ∃ kvs v, step = .obj kvs ∧ s' = .obj (set_assoc kvs "images" v) := by
  cases step with
  | obj kvs =>
      simp only [phase_2_step, py_get] at h
      split at h
      · cases h
        exact ⟨kvs, .null, rfl, rfl⟩
      · split at h
        · cases h
        · cases h
          exact ⟨kvs, _, rfl, rfl⟩
  | null => simp [phase_2_step, py_get] at h
  | bool b => simp [phase_2_step, py_get] at h
  | num n => simp [phase_2_step, py_get] at h
  | str s => simp [phase_2_step, py_get] at h
  | arr l => simp [phase_2_step, py_get] at h

theorem phase_2_step_preserve (KB : List ImageRecord) (sc : String → ImageRecord → ℚ)
    (tt step s' : Json) (h : phase_2_step KB sc tt step = .ok s')
    (k : String) (hk : k ≠ "images") : jlookup s' k = jlookup step k := by
  obtain ⟨kvs, v, rfl, rfl⟩ := phase_2_step_shape KB sc tt step s' h
  exact lookup_set_assoc_ne kvs "images" k v hk

theorem phase_2_steps_preserve (KB : List ImageRecord) (sc : String → ImageRecord → ℚ)
    (tt : Json) :
    ∀ (items items' : List Json), phase_2_steps KB sc tt items = .ok items' →
      items'.length = items.length ∧
      ∀ k, k ≠ "images" →
        items'.map (fun s => jlookup s k) = items.map (fun s => jlookup s k)
  | [], items', h => by
      cases h
      exact ⟨rfl, fun _ _ => rfl⟩
  | st :: rest, items', h => by
      simp only [phase_2_steps] at h
      split at h
      · cases h
      · rename_i st' hst'
        split at h
        · cases h
        · rename_i rest' hrest'
          cases h
          obtain ⟨ihlen, ihmap⟩ := phase_2_steps_preserve KB sc tt rest rest' hrest'
          refine ⟨by simp [ihlen], ?_⟩
          intro k hk
          simp only [List.map_cons]
          rw [phase_2_step_preserve KB sc tt st st' hst' k hk, ihmap k hk]

theorem step_field_list_eq_of_lookup (a b : Json)
    (h : jlookup a "steps" = jlookup b "steps") (k : String) :
    step_field_list a k = step_field_list b k := by
  unfold step_field_list
  rw [h]

theorem step_count_eq_of_lookup (a b : Json)
    (h : jlookup a "steps" = jlookup b "steps") : step_count a = step_count b := by
  unfold step_count
  rw [h]

/-- Frame property of phase 2: a normal return changes at most the `"steps"`
value, and within it only the per-step `"images"` fields. -/
theorem phase_2_preserve (KB : List ImageRecord) (sc : String → ImageRecord → ℚ)
    (sj r : Json) (h : phase_2_semantic_match KB sc sj = .ok r) :
    (∀ k, k ≠ "steps" → jlookup r k = jlookup sj k) ∧
    (∀ k, k ≠ "images" → step_field_list r k = step_field_list sj k) ∧
    step_count r = step_count sj := by
  unfold phase_2_semantic_match at h
  by_cases hKB : KB.isEmpty
  · rw [if_pos hKB] at h
    cases h
    exact ⟨fun _ _ => rfl, fun _ _ => rfl, rfl⟩
  · rw [if_neg hKB] at h
    cases sj with
    | obj kvs =>
        replace h : phase_2_obj KB sc kvs = .ok r := h
        unfold phase_2_obj at h
        cases hit : py_iter ((lookup_assoc kvs "steps").getD (.arr [])) with
        | error e =>
            rw [hit] at h
            cases h
        | ok items =>
            rw [hit] at h
            replace h :
                (match phase_2_steps KB sc ((lookup_assoc kvs "task_title").getD (.str "")) items with
                  | .error e => (.error e : Except PyError Json)
                  | .ok items' =>
                      match lookup_assoc kvs "steps" with
                      | some (.arr _) => .ok (.obj (set_assoc kvs "steps" (.arr items')))
                      | _ => .ok (.obj kvs)) = .ok r := h
            cases hst : phase_2_steps KB sc ((lookup_assoc kvs "task_title").getD (.str "")) items with
            | error e =>
                rw [hst] at h
                cases h
            | ok items' =>
                rw [hst] at h
                replace h :
                    (match lookup_assoc kvs "steps" with
                      | some (.arr _) => (.ok (.obj (set_assoc kvs "steps" (.arr items'))) : Except PyError Json)
                      | _ => .ok (.obj kvs)) = .ok r := h
                obtain ⟨hlen, hmap⟩ := phase_2_steps_preserve KB sc _ items items' hst
                cases hlk : lookup_assoc kvs "steps" with
                | none =>
                    rw [hlk] at h
                    cases h
                    exact ⟨fun _ _ => rfl, fun _ _ => rfl, rfl⟩
                | some v =>
                    cases v with
                    | arr l =>
                        rw [hlk] at h
                        cases h
                        rw [hlk] at hit
                        cases hit
                        refine ⟨?_, ?_, ?_⟩
                        · intro k hk
                          exact lookup_set_assoc_ne kvs "steps" k (.arr items') hk
                        · intro k hk
                          unfold step_field_list
                          show (match jlookup (Json.obj (set_assoc kvs "steps" (.arr items'))) "steps" with
                            | some (.arr l) => l.map fun s => jlookup s k
                            | _ => []) = _
                          rw [show jlookup (Json.obj (set_assoc kvs "steps" (.arr items'))) "steps" =
                                some (.arr items') from lookup_set_assoc_self kvs "steps" (.arr items'),
                              show jlookup (Json.obj kvs) "steps" = some (.arr items) from hlk]
                          exact hmap k hk
                        · unfold step_count
                          show (match jlookup (Json.obj (set_assoc kvs "steps" (.arr items'))) "steps" with
                            | some (.arr l) => l.length
                            | _ => 0) = _
                          rw [show jlookup (Json.obj (set_assoc kvs "steps" (.arr items'))) "steps" =
                                some (.arr items') from lookup_set_assoc_self kvs "steps" (.arr items'),
                              show jlookup (Json.obj kvs) "steps" = some (.arr items) from hlk]
                          exact hlen
                    | null =>
                        rw [hlk] at h
                        cases h
                        exact ⟨fun _ _ => rfl, fun _ _ => rfl, rfl⟩
                    | bool b =>
                        rw [hlk] at h
                        cases h
                        exact ⟨fun _ _ => rfl, fun _ _ => rfl, rfl⟩
                    | num n =>
                        rw [hlk] at h
                        cases h
                        exact ⟨fun _ _ => rfl, fun _ _ => rfl, rfl⟩
                    | str s =>
                        rw [hlk] at h
                        cases h
                        exact ⟨fun _ _ => rfl, fun _ _ => rfl, rfl⟩
                    | obj kvs2 =>
                        rw [hlk] at h
                        cases h
                        exact ⟨fun _ _ => rfl, fun _ _ => rfl, rfl⟩
    | null => cases h
    | bool b => cases h
    | num n => cases h
    | str s => cases h
    | arr l => cases h

-- ------------------------------------------------------------------
-- Orchestrator unfolding helper and fixtures for the remaining claims
-- ------------------------------------------------------------------

/-- A backend that always answers with the fixed raw text `r`. -/
def constLLM (r : String) : String → Option String := fun _ => some r

/-- Unfolding of the orchestrator once retrieval is non-empty. -/
theorem generate_guide_unfold (KB : List ImageRecord) (sc : String → ImageRecord → ℚ)
    (docs : List Doc) (llm : String → Option String) (query : String) (hne : docs ≠ []) :
    generate_guide_from_rag KB sc docs llm query =
      match phase_1_generate_steps llm query (text_context_of docs) with
      | none => .ok stepFailGuide
      | some step_data =>
          if pyFalsy step_data then .ok stepFailGuide
          else
            match phase_2_semantic_match KB sc step_data with
            | .error e => .error e
            | .ok final_data => py_setitem final_data "status" (.str "success") := by
  cases docs with
  | nil => exact absurd rfl hne
  | cons d t => rfl

/-- Unfolding of phase 1 when the backend fails. -/
theorem phase_1_eq_none (llm : String → Option String) (query tc : String)
    (h : llm (phase_1_prompt query tc) = none) :
    phase_1_generate_steps llm query tc = none := by
  unfold phase_1_generate_steps
  rw [h]

/-- Unfolding of phase 1 when the backend answers `raw`. -/
theorem phase_1_eq_some (llm : String → Option String) (query tc raw : String)
    (h : llm (phase_1_prompt query tc) = some raw) :
    phase_1_generate_steps llm query tc = if raw = "" then none else json_loads raw := by
  unfold phase_1_generate_steps
  rw [h]

-- ------------------------------------------------------------------
-- C4
-- ------------------------------------------------------------------

/-- C4 counterexample: in LOCAL mode the guide generator configures the
model call with temperature 0.1, not the claimed 0.0. -/
theorem C4_local_temperature_counterexample :
    (phase_1_llm_config Mode.LOCAL).temperature = 1/10 ∧
    (phase_1_llm_config Mode.LOCAL).temperature ≠ 0 := by
  constructor
  · show (mkRat 1 10 : ℚ) = 1/10
    norm_num [Rat.mkRat_eq_div]
  · show (mkRat 1 10 : ℚ) ≠ 0
    decide

/-- C4 (amended): the guide generator always passes a JSON response-format
constraint to the backend (phase 1 fixes json_mode=True in both modes), and
the temperature is 0.0 in CLOUD mode but 0.1 in LOCAL mode. -/
theorem C4_config_amended (mode : Mode) :
    (phase_1_llm_config mode).response_format.isSome = true ∧
    (phase_1_llm_config Mode.CLOUD).temperature = 0 ∧
    (phase_1_llm_config Mode.LOCAL).temperature = 1/10 := by
  refine ⟨?_, rfl, ?_⟩
  · cases mode <;> rfl
  · show (mkRat 1 10 : ℚ) = 1/10
    norm_num [Rat.mkRat_eq_div]

-- ------------------------------------------------------------------
-- C5
-- ------------------------------------------------------------------

/-- A syntactically well-formed model answer with no status field and an
empty steps array. -/
def rawEmptySteps : String := "\x7b\"steps\": []\x7d"

/-- C5 counterexample: the parsed answer has no `status`, and `steps` is
empty, yet no SchemaViolation occurs — the pipeline stamps it
`status = "success"`, producing a success guide with zero steps, which the
claim rules out. -/
theorem C5_no_schema_validation_counterexample :
    json_loads rawEmptySteps = some (Json.obj [("steps", Json.arr [])]) ∧
    generate_guide_from_rag [] scHalf docs1 (constLLM rawEmptySteps) "q" =
      .ok (Json.obj [("steps", Json.arr []), ("status", Json.str "success")]) ∧
    jlookup (Json.obj [("steps", Json.arr []), ("status", Json.str "success")]) "status" =
      some (Json.str "success") ∧
    step_count (Json.obj [("steps", Json.arr []), ("status", Json.str "success")]) = 0 :=
  ⟨rfl, rfl, rfl, rfl⟩

/-- C5 (amended): phase 1 parses the raw answer as JSON and a missing, empty
or unparseable answer makes the pipeline return the fixed failure guide with
no partial recovery; a parsed-but-falsy value also fails; but NO schema
validation follows a successful parse — any truthy parsed value goes
straight to image matching and is stamped status success regardless of its
shape. -/
theorem C5_parse_handling_amended (KB : List ImageRecord) (sc : String → ImageRecord → ℚ)
    (docs : List Doc) (llm : String → Option String) (query : String) (hne : docs ≠ []) :
    (llm (phase_1_prompt query (text_context_of docs)) = none →
      generate_guide_from_rag KB sc docs llm query = .ok stepFailGuide) ∧
    (∀ raw, llm (phase_1_prompt query (text_context_of docs)) = some raw →
      raw ≠ "" → json_loads raw = none →
      generate_guide_from_rag KB sc docs llm query = .ok stepFailGuide) ∧
    (∀ raw sd, llm (phase_1_prompt query (text_context_of docs)) = some raw →
      raw ≠ "" → json_loads raw = some sd → pyFalsy sd = true →
      generate_guide_from_rag KB sc docs llm query = .ok stepFailGuide) ∧
    (∀ raw sd, llm (phase_1_prompt query (text_context_of docs)) = some raw →
      raw ≠ "" → json_loads raw = some sd → pyFalsy sd = false →
      generate_guide_from_rag KB sc docs llm query =
        match phase_2_semantic_match KB sc sd with
        | .error e => .error e
        | .ok fd => py_setitem fd "status" (.str "success")) := by
  refine ⟨?_, ?_, ?_, ?_⟩
  · intro hllm
    rw [generate_guide_unfold KB sc docs llm query hne,
        phase_1_eq_none llm query (text_context_of docs) hllm]
  · intro raw hllm hraw hparse
    rw [generate_guide_unfold KB sc docs llm query hne,
        phase_1_eq_some llm query (text_context_of docs) raw hllm, if_neg hraw, hparse]
  · intro raw sd hllm hraw hparse hfalsy
    rw [generate_guide_unfold KB sc docs llm query hne,
        phase_1_eq_some llm query (text_context_of docs) raw hllm, if_neg hraw, hparse]
    simp [hfalsy]
  · intro raw sd hllm hraw hparse hfalsy
    rw [generate_guide_unfold KB sc docs llm query hne,
        phase_1_eq_some llm query (text_context_of docs) raw hllm, if_neg hraw, hparse]
    simp [hfalsy]

/-- Witness for C5 (amended): the concrete unparseable answer "nope" yields
the step-generation-failure guide. -/
theorem C5_parse_handling_witness :
    generate_guide_from_rag [] scHalf docs1 (constLLM "nope") "q" = .ok stepFailGuide :=
  (C5_parse_handling_amended [] scHalf docs1 (constLLM "nope") "q"
      (by decide)).2.1 "nope" rfl (by decide) rfl

-- ------------------------------------------------------------------
-- C6
-- ------------------------------------------------------------------

/-- Item assignment of a fresh key leaves every other key unchanged. -/
theorem py_setitem_lookup_ne (j : Json) (k k' : String) (v g : Json)
    (h : py_setitem j k v = .ok g) (hk : k' ≠ k) : jlookup g k' = jlookup j k' := by
  cases j with
  | obj kvs =>
      cases h
      exact lookup_set_assoc_ne kvs k k' v hk
  | null => cases h
  | bool b => cases h
  | num n => cases h
  | str s => cases h
  | arr l => cases h

/-- Model answer citing chunk 99 when only one chunk was supplied. -/
def raw99 : String :=
  "\x7b\"task_title\": \"T\", \"steps\": [\x7b\"step\": 1, \"instruction\": \"Do\", \"chunks\": [99]\x7d]\x7d"

/-- The parse of raw99. -/
def sd99 : Json :=
  Json.obj [("task_title", Json.str "T"),
    ("steps", Json.arr [Json.obj [("step", Json.num 1), ("instruction", Json.str "Do"),
      ("chunks", Json.arr [Json.num 99])]])]

/-- The final guide the pipeline produces from raw99. -/
def guide99 : Json :=
  Json.obj [("task_title", Json.str "T"),
    ("steps", Json.arr [Json.obj [("step", Json.num 1), ("instruction", Json.str "Do"),
      ("chunks", Json.arr [Json.num 99])]]), ("status", Json.str "success")]

/-- C6 counterexample: the model cites chunk 99 although only one chunk
(valid id 1) was supplied, and the citation is NOT dropped: it survives
verbatim into the final success guide. -/
theorem C6_citation_counterexample :
    json_loads raw99 = some sd99 ∧
    generate_guide_from_rag [] scHalf docs1 (constLLM raw99) "q" = .ok guide99 ∧
    step_field_list guide99 "chunks" = [some (Json.arr [Json.num 99])] ∧
    docs1.length = 1 ∧ ¬ ((99 : Nat) ≤ docs1.length) :=
  ⟨rfl, rfl, rfl, rfl, by decide⟩

/-- C6 (amended): chunk citations pass through the pipeline completely
unvalidated — whenever the pipeline succeeds, the "chunks" field of every
step of the final guide is exactly what the model emitted, out-of-range
ids included; neither phase 1 nor the orchestrator inspects citations and
phase 2 writes only "images". -/
theorem C6_citations_passthrough_amended (KB : List ImageRecord)
    (sc : String → ImageRecord → ℚ) (docs : List Doc) (llm : String → Option String)
    (query raw : String) (sd fd g : Json)
    (hne : docs ≠ [])
    (hllm : llm (phase_1_prompt query (text_context_of docs)) = some raw)
    (hraw : raw ≠ "")
    (hparse : json_loads raw = some sd)
    (hfalsy : pyFalsy sd = false)
    (hph2 : phase_2_semantic_match KB sc sd = .ok fd)
    (hset : py_setitem fd "status" (.str "success") = .ok g) :
    generate_guide_from_rag KB sc docs llm query = .ok g ∧
    step_field_list g "chunks" = step_field_list sd "chunks" := by
  constructor
  · rw [generate_guide_unfold KB sc docs llm query hne,
        phase_1_eq_some llm query (text_context_of docs) raw hllm, if_neg hraw, hparse]
    simp [hfalsy, hph2, hset]
  · have h1 : jlookup g "steps" = jlookup fd "steps" :=
      py_setitem_lookup_ne fd "status" "steps" (.str "success") g hset (by decide)
    rw [step_field_list_eq_of_lookup g fd h1 "chunks"]
    exact (phase_2_preserve KB sc sd fd hph2).2.1 "chunks" (by decide)

/-- Witness for C6 (amended) on the concrete out-of-range citation. -/
theorem C6_citations_passthrough_witness :
    generate_guide_from_rag [] scHalf docs1 (constLLM raw99) "q" = .ok guide99 ∧
    step_field_list guide99 "chunks" = step_field_list sd99 "chunks" :=
  C6_citations_passthrough_amended [] scHalf docs1 (constLLM raw99) "q" raw99 sd99 sd99 guide99
    (by decide) rfl (by decide) rfl rfl rfl rfl

-- ------------------------------------------------------------------
-- C7
-- ------------------------------------------------------------------

/-- C7 counterexample: the backend prompt renders the single retrieved chunk
as "[Chunk 1] Remove the cap" — without the claimed
"(Source: <filename>):" part. -/
theorem C7_context_format_counterexample :
    build_context_parts docs1 = ["[Chunk 1] Remove the cap"] ∧
    "[Chunk 1] Remove the cap" ≠ "[Chunk 1] (Source: manual_a.pdf): Remove the cap" :=
  ⟨by decide, by decide⟩

/-- C7 (amended): the backend prompt renders the chunk at 0-based position i
as "[Chunk <i+1>] <content>" — 1-based ids, matching the 1-based example ids
of the prompt's output schema — with every embedded newline replaced by a
space, and with no source-filename attribution. -/
theorem C7_context_format_amended (docs : List Doc) :
    (build_context_parts docs).length = docs.length ∧
    (∀ i doc, docs[i]? = some doc →
      (build_context_parts docs)[i]? =
        some ("[Chunk " ++ toString (i + 1) ++ "] " ++ replace_newlines doc.page_content)) ∧
    (∀ s : String, '\n' ∉ (replace_newlines s).data) := by
  refine ⟨?_, ?_, ?_⟩
  · simp [build_context_parts, List.enum_length]
  · intro i doc hdoc
    simp [build_context_parts, List.getElem?_map, List.getElem?_enum, hdoc]
  · intro s hmem
    unfold replace_newlines at hmem
    rcases List.mem_map.mp hmem with ⟨c, _, hc⟩
    by_cases h : c = '\n'
    · rw [if_pos h] at hc
      exact absurd hc (by decide)
    · rw [if_neg h] at hc
      exact h hc

/-- Witness for C7 (amended) on the one-chunk fixture. -/
theorem C7_context_format_witness :
    (build_context_parts docs1)[0]? = some "[Chunk 1] Remove the cap" :=
  (C7_context_format_amended docs1).2.1 0 ⟨"Remove the cap", "manual_a.pdf"⟩ rfl

-- ------------------------------------------------------------------
-- C8
-- ------------------------------------------------------------------

/-- Model answer whose single step lacks the "step" key. -/
def rawNoStep : String :=
  "\x7b\"task_title\": \"T\", \"steps\": [\x7b\"instruction\": \"Do\"\x7d]\x7d"

/-- The parse of rawNoStep. -/
def sdNoStep : Json :=
  Json.obj [("task_title", Json.str "T"),
    ("steps", Json.arr [Json.obj [("instruction", Json.str "Do")]])]

/-- The success guide built from sdNoStep when the corpus is empty. -/
def gNoStep : Json :=
  Json.obj [("task_title", Json.str "T"),
    ("steps", Json.arr [Json.obj [("instruction", Json.str "Do")]]),
    ("status", Json.str "success")]

/-- C8 counterexample: with a non-empty corpus and a matching score, a step
lacking the "step" key makes the success-log line raise KeyError inside
phase 2; the exception is not recovered — it propagates out of
generate_guide_from_rag, so the image-matching stage DOES fail the
pipeline. -/
theorem C8_image_failure_counterexample :
    json_loads rawNoStep = some sdNoStep ∧
    phase_2_semantic_match KBa scHalf sdNoStep = .error (PyError.keyError "step") ∧
    generate_guide_from_rag KBa scHalf docs1 (constLLM rawNoStep) "q" =
      .error (PyError.keyError "step") :=
  ⟨rfl, rfl, rfl⟩

/-- C8 (amended): when the image corpus is empty or unloaded, phase 2
returns its input untouched (every step simply gets no images) and the
pipeline still completes with a success Guide; but an exception inside
image matching is NOT recovered locally — it propagates and aborts the
pipeline (see the counterexample). -/
theorem C8_empty_corpus_amended (sc : String → ImageRecord → ℚ) (docs : List Doc)
    (llm : String → Option String) (query raw : String) (sd g : Json)
    (hne : docs ≠ [])
    (hllm : llm (phase_1_prompt query (text_context_of docs)) = some raw)
    (hraw : raw ≠ "")
    (hparse : json_loads raw = some sd)
    (hfalsy : pyFalsy sd = false)
    (hset : py_setitem sd "status" (.str "success") = .ok g) :
    (∀ sj : Json, phase_2_semantic_match [] sc sj = .ok sj) ∧
    generate_guide_from_rag [] sc docs llm query = .ok g := by
  refine ⟨fun _ => rfl, ?_⟩
  rw [generate_guide_unfold [] sc docs llm query hne,
      phase_1_eq_some llm query (text_context_of docs) raw hllm, if_neg hraw, hparse]
  have hp2 : phase_2_semantic_match [] sc sd = .ok sd := rfl
  simp [hfalsy, hp2, hset]

/-- Witness for C8 (amended) on the concrete fixture. -/
theorem C8_empty_corpus_witness :
    (∀ sj : Json, phase_2_semantic_match [] scHalf sj = .ok sj) ∧
    generate_guide_from_rag [] scHalf docs1 (constLLM rawNoStep) "q" = .ok gNoStep :=
  C8_empty_corpus_amended scHalf docs1 (constLLM rawNoStep) "q" rawNoStep sdNoStep gNoStep
    (by decide) rfl (by decide) rfl rfl rfl

-- ------------------------------------------------------------------
-- C9
-- ------------------------------------------------------------------

/-- A step carrying both a visual_description and an instruction. -/
def stepVD : Json :=
  Json.obj [("step", Json.num 1), ("instruction", Json.str "IN"),
    ("visual_description", Json.str "VD")]

/-- The same step without the visual_description. -/
def stepNoVD : Json :=
  Json.obj [("step", Json.num 1), ("instruction", Json.str "IN")]

/-- Guide holding the single step stepVD. -/
def sdVD : Json :=
  Json.obj [("task_title", Json.str "T"), ("steps", Json.arr [stepVD])]

/-- Scores 1/2 exactly for the query text built from the instruction,
0 for every other query text (in particular for the one built from the
visual_description). -/
def scVD : String → ImageRecord → ℚ :=
  fun q _ => if q = "T IN" then mkRat 1 2 else 0

/-- The phase-2 result on sdVD: the image was attached. -/
def resVD : Json :=
  Json.obj [("task_title", Json.str "T"),
    ("steps", Json.arr [Json.obj [("step", Json.num 1), ("instruction", Json.str "IN"),
      ("visual_description", Json.str "VD"), ("images", Json.arr [Json.str "a.png"])]])]

/-- C9 counterexample: the step has visual_description "VD", yet phase 2
attaches an image even though every corpus record scores 0 (far below the
threshold) against the claimed search text "T VD" — the search text actually
used is task_title + instruction ("T IN"), ignoring visual_description. -/
theorem C9_instruction_used_counterexample :
    jlookup stepVD "visual_description" = some (Json.str "VD") ∧
    phase_2_query_text (Json.str "T") (Json.str "IN") = "T IN" ∧
    phase_2_semantic_match KBa scVD sdVD = .ok resVD ∧
    step_field_list resVD "images" = [some (Json.arr [Json.str "a.png"])] ∧
    scVD "T VD" ⟨"a.png"⟩ = 0 ∧ ¬ ((7:ℚ)/20 < 0) :=
  ⟨rfl, rfl, rfl, rfl, rfl, by norm_num⟩

/-- C9 (amended): the per-step matching of phase 2 depends only on the
"instruction" field (and the presence of "step"), never on
visual_description — two steps agreeing on those fields get identical image
assignments — and the search breadth is fixed at top 3, so at most 3 images
are attached to a step. -/
theorem C9_search_text_amended (KB : List ImageRecord) (sc : String → ImageRecord → ℚ)
    (tt s₁ s₂ : Json)
    (hinstr : jlookup s₁ "instruction" = jlookup s₂ "instruction")
    (hstep : jlookup s₁ "step" = jlookup s₂ "step")
    (h₁ : isObj s₁ = true) (h₂ : isObj s₂ = true) :
    (phase_2_step KB sc tt s₁).map (fun s => jlookup s "images") =
      (phase_2_step KB sc tt s₂).map (fun s => jlookup s "images") ∧
    (∀ s' imgs, phase_2_step KB sc tt s₁ = .ok s' →
      jlookup s' "images" = some (.arr imgs) → imgs.length ≤ 3) := by
  cases s₁ with
  | null => simp [isObj] at h₁
  | bool b => simp [isObj] at h₁
  | num n => simp [isObj] at h₁
  | str s => simp [isObj] at h₁
  | arr l => simp [isObj] at h₁
  | obj kvs₁ =>
    constructor
    · cases s₂ with
      | null => simp [isObj] at h₂
      | bool b => simp [isObj] at h₂
      | num n => simp [isObj] at h₂
      | str s => simp [isObj] at h₂
      | arr l => simp [isObj] at h₂
      | obj kvs₂ =>
        have hi : (lookup_assoc kvs₁ "instruction").getD (.str "") =
            (lookup_assoc kvs₂ "instruction").getD (.str "") := by
          have : lookup_assoc kvs₁ "instruction" = lookup_assoc kvs₂ "instruction" := hinstr
          rw [this]
        simp only [phase_2_step, py_get]
        rw [hi]
        by_cases hsel : (search_indices
            (KB.map (sc (phase_2_query_text tt
              ((lookup_assoc kvs₂ "instruction").getD (.str ""))))) 3).isEmpty
        · rw [if_pos hsel, if_pos hsel]
          simp only [Except.map]
          rw [jlookup_dict_set_self, jlookup_dict_set_self]
        · rw [if_neg hsel, if_neg hsel]
          rw [show jlookup (Json.obj kvs₁) "step" = jlookup (Json.obj kvs₂) "step" from hstep]
          cases jlookup (Json.obj kvs₂) "step" with
          | none => rfl
          | some v =>
              simp only [Except.map]
              rw [jlookup_dict_set_self, jlookup_dict_set_self]
    · intro s' imgs hok himg
      simp only [phase_2_step, py_get] at hok
      split at hok
      · cases hok
        rw [jlookup_dict_set_self] at himg
        injection himg with h1
        cases h1
      · split at hok
        · cases hok
        · cases hok
          rw [jlookup_dict_set_self] at himg
          injection himg with h1
          injection h1 with h2
          rw [← h2, List.length_map]
          exact search_indices_length _ _

/-- Witness for C9 (amended): the step with and the step without the
visual_description receive the same images. -/
theorem C9_search_text_witness :
    (phase_2_step KBa scVD (Json.str "T") stepVD).map (fun s => jlookup s "images") =
      (phase_2_step KBa scVD (Json.str "T") stepNoVD).map (fun s => jlookup s "images") :=
  (C9_search_text_amended KBa scVD (Json.str "T") stepVD stepNoVD rfl rfl rfl rfl).1

-- ------------------------------------------------------------------
-- C10
-- ------------------------------------------------------------------

/-- The phase-2 result on sdDo over the one-record corpus. -/
def sdDo : Json :=
  Json.obj [("task_title", Json.str "T"),
    ("steps", Json.arr [Json.obj [("step", Json.num 1), ("instruction", Json.str "Do")]])]

/-- The phase-2 output for sdDo: only images added. -/
def rDo : Json :=
  Json.obj [("task_title", Json.str "T"),
    ("steps", Json.arr [Json.obj [("step", Json.num 1), ("instruction", Json.str "Do"),
      ("images", Json.arr [Json.str "a.png"])]])]

/-- C10: whenever phase 2 returns normally it has changed nothing except the
per-step "images" fields: every other top-level key (task_title included)
keeps its original value, every other field of every step keeps its original
value, and the number of steps is unchanged (the in-place mutation of the
Python code is modelled as content equality of the returned dict). -/
theorem C10_phase2_frame (KB : List ImageRecord) (sc : String → ImageRecord → ℚ)
    (sj r : Json) (h : phase_2_semantic_match KB sc sj = .ok r) :
    (∀ k, k ≠ "steps" → jlookup r k = jlookup sj k) ∧
    (∀ k, k ≠ "images" → step_field_list r k = step_field_list sj k) ∧
    step_count r = step_count sj :=
  phase_2_preserve KB sc sj r h

/-- Witness for C10 on a concrete successful phase-2 run. -/
theorem C10_phase2_frame_witness :
    jlookup rDo "task_title" = jlookup sdDo "task_title" ∧
    step_field_list rDo "instruction" = step_field_list sdDo "instruction" :=
  ⟨(C10_phase2_frame KBa scHalf sdDo rDo rfl).1 "task_title" (by decide),
   (C10_phase2_frame KBa scHalf sdDo rDo rfl).2.1 "instruction" (by decide)⟩
